import Mathlib

/-! Shallow embedding of the request-shaping logic of the safe-gelato scripts
(`src/sendTxn.ts`, `src/estimate.ts`, `src/index.ts`, `src/test.ts`, and the
deployment-aware estimation script shipped as `unnamed/part_000`).
JavaScript BigInt values are modelled as `Nat` (both are arbitrary
precision); JavaScript objects with optional keys become structures with
`Option` fields, where `none` means the key is absent from the object;
thrown exceptions become `Except String`; the JSON values seen by the
response handlers become the inductive `JsValue`. -/

/-- The in-memory UserOperation record: the viem `UserOperation` type
extended with `paymasterAndData` (`src/sendTxn.ts` lines 11-13, identical in
`src/estimate.ts` and `unnamed/part_000`).  The TypeScript type of
`factory`, `factoryData` and `paymasterAndData` is an optional template
string of shape `0x...`; `none` models an absent/undefined field.  The same
structure also serves as the SDK-prepared draft returned by
`prepareUserOperation`, since the scripts read exactly these fields off it. -/
structure UserOperation where
  sender : String
  nonce : Nat
  factory : Option String := none
  factoryData : Option String := none
  callData : String
  callGasLimit : Nat
  verificationGasLimit : Nat
  preVerificationGas : Nat
  maxFeePerGas : Nat
  maxPriorityFeePerGas : Nat
  signature : String
  paymasterAndData : Option String := none

/-- Hex digit character: 0-9 then lowercase a-f, as produced by the
JavaScript `Number`/`BigInt` `toString(16)` builtin. -/
def hexDigitChar (d : Nat) : Char :=
  if d < 10 then Char.ofNat (48 + d) else Char.ofNat (87 + d)

/-- Fuel-based recursion computing the big-endian base-16 digit list of `n`;
`fuel > n` always suffices since the argument strictly decreases. -/
def hexRepAux (fuel : Nat) (n : Nat) : List Char :=
  match fuel with
  | 0 => []
  | fuel + 1 =>
    if n < 16 then [hexDigitChar n]
    else hexRepAux fuel (n / 16) ++ [hexDigitChar (n % 16)]

/-- Minimal big-endian base-16 digit list of `n`, with `0` rendered as the
single digit `0`.  Models the ECMAScript semantics of
`BigInt.prototype.toString(16)` used at `src/sendTxn.ts` lines 117/128/129,
`src/estimate.ts` lines 121/128-133 and `unnamed/part_000` lines 158-165. -/
def hexRep (n : Nat) : List Char := hexRepAux (n + 1) n

/-- JavaScript `n.toString(16)` for an unsigned BigInt `n`. -/
def jsHex (n : Nat) : String := String.mk (hexRep n)

/-- The wire-format JSON object built for `eth_estimateUserOperationGas` /
`eth_sendUserOperation` params.  All numeric fields are already strings
here; `factory`/`factoryData` are `Option` because the scripts include those
keys only conditionally (`none` = key absent from the outgoing object). -/
structure FormattedUserOperation where
  sender : String
  nonce : String
  factory : Option String
  factoryData : Option String
  callData : String
  maxFeePerGas : String
  maxPriorityFeePerGas : String
  preVerificationGas : String
  signature : String
  callGasLimit : String
  verificationGasLimit : String

/-- JavaScript `o || d` on an optional string `o`: the default `d` is taken
when the field is absent or the empty string (the only falsy string). -/
def jsOr (o : Option String) (d : String) : String :=
  match o with
  | some s => if s = "" then d else s
  | none => d

/-- The conditional factory-key block shared verbatim by all three
formatters (`src/sendTxn.ts` lines 119-122, `src/estimate.ts` lines 123-126,
`unnamed/part_000` lines 168-177): the keys are included only when
`factory && factory !== "0x"` is truthy, and then `factoryData` defaults to
`"0x"` via `factoryData || "0x"`.  Returns the pair
(factory key, factoryData key) of the outgoing object. -/
def factoryFields (factory factoryData : Option String) :
    Option String × Option String :=
  match factory with
  | some f =>
    if f = "" ∨ f = "0x" then (none, none)
    else (some f, some (jsOr factoryData "0x"))
  | none => (none, none)

/-- The `userOpForSubmission` object built by `sendUserOperationToGelato`
(`src/sendTxn.ts` lines 115-130).  Note `maxFeePerGas`,
`maxPriorityFeePerGas` and `preVerificationGas` are hardcoded to `"0x0"`
(comments in source: Zero for 1Balance), while `nonce`, `callGasLimit` and
`verificationGasLimit` are hex-converted from the input. -/
def userOpForSubmission (u : UserOperation) : FormattedUserOperation :=
  { sender := u.sender
    nonce := "0x" ++ jsHex u.nonce
    factory := (factoryFields u.factory u.factoryData).1
    factoryData := (factoryFields u.factory u.factoryData).2
    callData := u.callData
    maxFeePerGas := "0x0"
    maxPriorityFeePerGas := "0x0"
    preVerificationGas := "0x0"
    signature := u.signature
    callGasLimit := "0x" ++ jsHex u.callGasLimit
    verificationGasLimit := "0x" ++ jsHex u.verificationGasLimit }

/-- The v0.7 `userOpForEstimation` object built by `getGasValuesFromGelato`
in the standalone estimation script (`src/estimate.ts` lines 117-134).  All
six numeric fields are hex-converted from the input. -/
def userOpForEstimation (u : UserOperation) : FormattedUserOperation :=
  { sender := u.sender
    nonce := "0x" ++ jsHex u.nonce
    factory := (factoryFields u.factory u.factoryData).1
    factoryData := (factoryFields u.factory u.factoryData).2
    callData := u.callData
    maxFeePerGas := "0x" ++ jsHex u.maxFeePerGas
    maxPriorityFeePerGas := "0x" ++ jsHex u.maxPriorityFeePerGas
    preVerificationGas := "0x" ++ jsHex u.preVerificationGas
    signature := u.signature
    callGasLimit := "0x" ++ jsHex u.callGasLimit
    verificationGasLimit := "0x" ++ jsHex u.verificationGasLimit }

/-- The v0.7 `userOpForEstimation` object built by `getGasValuesFromGelato`
in the deployment-aware script (`unnamed/part_000` lines 156-177).  The
fields and the conditional factory block are identical to the
`src/estimate.ts` variant (only the JSON key insertion order differs, which
a record abstracts away). -/
def userOpForEstimationDeployAware (u : UserOperation) :
    FormattedUserOperation :=
  { sender := u.sender
    nonce := "0x" ++ jsHex u.nonce
    factory := (factoryFields u.factory u.factoryData).1
    factoryData := (factoryFields u.factory u.factoryData).2
    callData := u.callData
    maxFeePerGas := "0x" ++ jsHex u.maxFeePerGas
    maxPriorityFeePerGas := "0x" ++ jsHex u.maxPriorityFeePerGas
    preVerificationGas := "0x" ++ jsHex u.preVerificationGas
    signature := u.signature
    callGasLimit := "0x" ++ jsHex u.callGasLimit
    verificationGasLimit := "0x" ++ jsHex u.verificationGasLimit }

example : jsHex 0 = "0" := by decide
example : jsHex 5 = "5" := by decide
example : jsHex 255 = "ff" := by decide
example : jsHex 31 = "1f" := by decide

/-- The hard-coded EntryPoint v0.7 address (`src/sendTxn.ts` line 17,
`src/estimate.ts` line 17, `unnamed/part_000` line 17). -/
def entryPointAddress : String := "0x0000000071727De22E5E9d8BAf0edAc6f37da032"

/-- Version detection (`src/estimate.ts` lines 27-29 and `unnamed/part_000`
lines 27-29): the v0.7 constant maps to the string v0.7, every other address
maps to the string v0.6. -/
def detectEntryPointVersion (addr : String) : String :=
  if addr = entryPointAddress then "v0.7" else "v0.6"

/-- The body of the JSON-RPC POST issued to the Gelato bundler
(`src/estimate.ts` lines 137-146, `src/sendTxn.ts` lines 132-141,
`unnamed/part_000` lines 180-189).  `userOp` is an `Option` because on the
non-v0.7 path the scripts leave `userOpForEstimation` undefined and still
place it in `params`; `none` models that undefined first parameter. -/
structure RpcRequest where
  id : Nat
  jsonrpc : String
  method : String
  userOp : Option FormattedUserOperation
  entryPoint : String

/-- Request construction of `getGasValuesFromGelato` in `src/estimate.ts`
(lines 106-148): format the UserOperation only when the detected version is
v0.7, then build the `eth_estimateUserOperationGas` request.  The source
contains no throw on this path, so the function is total: an unrecognized
version silently yields a request with an undefined UserOperation body. -/
def getGasRequest (addr : String) (u : UserOperation) : RpcRequest :=
  { id := 1
    jsonrpc := "2.0"
    method := "eth_estimateUserOperationGas"
    userOp :=
      if detectEntryPointVersion addr = "v0.7" then some (userOpForEstimation u)
      else none
    entryPoint := addr }

/-- Request construction of `getGasValuesFromGelato` in `unnamed/part_000`
(lines 143-195): identical control flow to the `src/estimate.ts` variant,
using the deployment-aware formatter. -/
def getGasRequestDeployAware (addr : String) (u : UserOperation) : RpcRequest :=
  { id := 1
    jsonrpc := "2.0"
    method := "eth_estimateUserOperationGas"
    userOp :=
      if detectEntryPointVersion addr = "v0.7" then
        some (userOpForEstimationDeployAware u)
      else none
    entryPoint := addr }

/-- Truthiness of an optional JavaScript string: absent/undefined and the
empty string are falsy, every other string is truthy. -/
def optTruthy (o : Option String) : Bool :=
  match o with
  | none => false
  | some s => s ≠ ""

/-- The `sponsoredUserOperation` construction of `main` in
`unnamed/part_000` (lines 95-126): copy the scalar fields of the
SDK-prepared draft, set `paymasterAndData` to `0x`, then attach
`factory`/`factoryData` only when the account is not deployed; for an
undeployed account whose draft lacks truthy `factory` and `factoryData`
the script throws before any network call, modelled as `Except.error`. -/
def buildSponsoredUserOperation (isDeployed : Bool) (draft : UserOperation) :
    Except String UserOperation :=
  let base : UserOperation :=
    { sender := draft.sender
      nonce := draft.nonce
      factory := none
      factoryData := none
      callData := draft.callData
      callGasLimit := draft.callGasLimit
      verificationGasLimit := draft.verificationGasLimit
      preVerificationGas := draft.preVerificationGas
      maxFeePerGas := draft.maxFeePerGas
      maxPriorityFeePerGas := draft.maxPriorityFeePerGas
      signature := draft.signature
      paymasterAndData := some "0x" }
  if !isDeployed then
    if optTruthy draft.factory && optTruthy draft.factoryData then
      Except.ok { base with factory := draft.factory, factoryData := draft.factoryData }
    else
      Except.error "Cannot proceed without factory data for account deployment"
  else
    Except.ok base

/-- The deployment-aware estimation flow of `unnamed/part_000` `main`
(lines 95-134): build the sponsored UserOperation from the draft and the
deployment status, then hand it to `getGasValuesFromGelato` with the
hard-coded EntryPoint address.  An `Except.error` aborts before the request
is built, modelling the throw before any network call. -/
def deployAwareEstimateFlow (isDeployed : Bool) (draft : UserOperation) :
    Except String RpcRequest :=
  (buildSponsoredUserOperation isDeployed draft).map
    (getGasRequestDeployAware entryPointAddress)

/-- The `sponsoredUserOperation` construction of `main` in
`src/estimate.ts` (lines 71-84): all fields including `factory` and
`factoryData` are copied from the draft unconditionally and
`paymasterAndData` is set to `0x`; there is no deployment-status check. -/
def standaloneSponsoredUserOperation (draft : UserOperation) : UserOperation :=
  { sender := draft.sender
    nonce := draft.nonce
    factory := draft.factory
    factoryData := draft.factoryData
    callData := draft.callData
    callGasLimit := draft.callGasLimit
    verificationGasLimit := draft.verificationGasLimit
    preVerificationGas := draft.preVerificationGas
    maxFeePerGas := draft.maxFeePerGas
    maxPriorityFeePerGas := draft.maxPriorityFeePerGas
    signature := draft.signature
    paymasterAndData := some "0x" }

/-- The standalone estimation flow of `src/estimate.ts` `main`
(lines 71-97): build the sponsored UserOperation and pass it to
`getGasValuesFromGelato` with the hard-coded EntryPoint address. -/
def standaloneEstimateFlow (draft : UserOperation) : RpcRequest :=
  getGasRequest entryPointAddress (standaloneSponsoredUserOperation draft)

/-- JSON values as parsed from a JSON-RPC response body. -/
inductive JsValue where
  | null
  | bool (b : Bool)
  | num (n : Int)
  | str (s : String)
  | arr (elems : List JsValue)
  | obj (fields : List (String × JsValue))

/-- Property lookup on a list of object fields. -/
def lookupField (fields : List (String × JsValue)) (k : String) : Option JsValue :=
  match fields with
  | [] => none
  | (key, v) :: rest => if key = k then some v else lookupField rest k

/-- JavaScript property access `v[k]`: defined on objects, undefined
elsewhere. -/
def JsValue.get (v : JsValue) (k : String) : Option JsValue :=
  match v with
  | .obj fields => lookupField fields k
  | _ => none

/-- JavaScript truthiness of a JSON value: null, false, 0 and the empty
string are falsy; objects and arrays are always truthy. -/
def JsValue.truthy (v : JsValue) : Bool :=
  match v with
  | .null => false
  | .bool b => b
  | .num n => n ≠ 0
  | .str s => s ≠ ""
  | .arr _ => true
  | .obj _ => true

/-- Outcome of the `fetch` promise chain: the HTTP body parsed as JSON, a
body that fails to parse (`response.json()` rejects), or a rejected fetch
(network failure). -/
inductive FetchOutcome where
  | ok (body : JsValue)
  | malformed
  | reject

/-- Value of the `responseValues` variable after
`await fetch(...).then((response) => response.json()).then((response) =>
(responseValues = response)).catch((err) => console.error(err))`
(`src/estimate.ts` lines 150-154, `src/sendTxn.ts` lines 145-149,
`unnamed/part_000` lines 196-200): on a parsed body the variable holds it;
when the fetch rejects or the body fails to parse the catch handler only
logs and `responseValues` stays undefined (`none`); no rejection escapes
the chain. -/
def responseValuesAfterFetch (o : FetchOutcome) : Option JsValue :=
  match o with
  | .ok body => some body
  | .malformed => none
  | .reject => none

/-- Result extraction shared by both transport functions
(`src/estimate.ts` lines 158-166, `src/sendTxn.ts` lines 153-161,
`unnamed/part_000` lines 204-212): the payload is returned exactly when
`responseValues` is truthy and its `result` property is truthy — the guard
in the source reads the `result` property and branches on its truthiness —
otherwise the error is logged and the function returns undefined
(`none`). -/
def extractRpcResult (responseValues : Option JsValue) : Option JsValue :=
  match responseValues with
  | none => none
  | some rv =>
    if rv.truthy then
      match rv.get "result" with
      | some r => if r.truthy then some r else none
      | none => none
    else none

/-- End-to-end response handling of `getGasValuesFromGelato`
(`src/estimate.ts` lines 150-166, same in `unnamed/part_000`
lines 196-213): the `rvGas` value returned to the caller. -/
def getGasValuesResult (o : FetchOutcome) : Option JsValue :=
  extractRpcResult (responseValuesAfterFetch o)

/-- End-to-end response handling of `sendUserOperationToGelato`
(`src/sendTxn.ts` lines 145-161): the `taskId` value returned to the
caller; the source logic is identical to the estimation variant. -/
def sendUserOperationResult (o : FetchOutcome) : Option JsValue :=
  extractRpcResult (responseValuesAfterFetch o)

/-- Numeric value of a lowercase hex digit character. -/
def hexVal (c : Char) : Nat :=
  if c.isDigit then c.toNat - 48 else c.toNat - 87

/-- Whether a character is a canonical lowercase hexadecimal digit. -/
def isLowerHexDigit (c : Char) : Bool :=
  (decide ('0' ≤ c) && decide (c ≤ '9')) || (decide ('a' ≤ c) && decide (c ≤ 'f'))

/-- Value denoted by a big-endian list of hex digit characters. -/
def parseHexDigits (l : List Char) : Nat :=
  l.foldl (fun a c => 16 * a + hexVal c) 0

theorem hexVal_hexDigitChar (d : Nat) (h : d < 16) :
    hexVal (hexDigitChar d) = d := by
  interval_cases d <;> decide

theorem isLowerHexDigit_hexDigitChar (d : Nat) (h : d < 16) :
    isLowerHexDigit (hexDigitChar d) = true := by
  interval_cases d <;> decide

theorem hexDigitChar_ne_zero (d : Nat) (h0 : d ≠ 0) (h : d < 16) :
    hexDigitChar d ≠ '0' := by
  have h1 : 1 ≤ d := by omega
  interval_cases d <;> decide

theorem hexRepAux_ne_nil (fuel n : Nat) (h : 0 < fuel) :
    hexRepAux fuel n ≠ [] := by
  match fuel with
  | fuel + 1 =>
    unfold hexRepAux
    split
    · simp
    · simp

theorem parseHexDigits_append_digit (l : List Char) (c : Char) :
    parseHexDigits (l ++ [c]) = 16 * parseHexDigits l + hexVal c := by
  simp [parseHexDigits, List.foldl_append]

theorem parseHexDigits_hexRepAux (fuel : Nat) :
    ∀ n, n < fuel → parseHexDigits (hexRepAux fuel n) = n := by
  induction fuel with
  | zero => intro n h; omega
  | succ m ih =>
    intro n h
    unfold hexRepAux
    split
    · next hlt =>
      simp [parseHexDigits]
      exact hexVal_hexDigitChar n hlt
    · next hge =>
      rw [parseHexDigits_append_digit]
      rw [ih (n / 16) (by omega)]
      rw [hexVal_hexDigitChar (n % 16) (Nat.mod_lt n (by omega))]
      omega

theorem hexRepAux_head_ne_zero (fuel : Nat) :
    ∀ n, n < fuel → n ≠ 0 → (hexRepAux fuel n).head? ≠ some '0' := by
  induction fuel with
  | zero => intro n h; omega
  | succ m ih =>
    intro n h hn
    unfold hexRepAux
    split
    · next hlt =>
      simp only [List.head?]
      intro hc
      exact hexDigitChar_ne_zero n hn hlt (by injection hc)
    · next hge =>
      rw [List.head?_append_of_ne_nil _ (hexRepAux_ne_nil m (n / 16) (by omega))]
      exact ih (n / 16) (by omega) (by omega)

theorem hexRepAux_all_digits (fuel : Nat) :
    ∀ n, n < fuel → (hexRepAux fuel n).all isLowerHexDigit = true := by
  induction fuel with
  | zero => intro n h; omega
  | succ m ih =>
    intro n h
    unfold hexRepAux
    split
    · next hlt =>
      simp [isLowerHexDigit_hexDigitChar n hlt]
    · next hge =>
      rw [List.all_append, Bool.and_eq_true]
      refine And.intro (ih (n / 16) (by omega)) ?_
      simp [isLowerHexDigit_hexDigitChar (n % 16) (Nat.mod_lt n (by omega))]

/-- Round trip: the hex digits produced by `jsHex` denote exactly `n`. -/
theorem parseHexDigits_jsHex (n : Nat) :
    parseHexDigits (jsHex n).toList = n := by
  have := parseHexDigits_hexRepAux (n + 1) n (by omega)
  simpa [jsHex] using this

/-- The hex string of a nonzero value never starts with a zero digit. -/
theorem jsHex_no_leading_zero (n : Nat) :
    jsHex n = "0" ∨ (jsHex n).toList.head? ≠ some '0' := by
  by_cases hn : n = 0
  · subst hn; exact Or.inl (by decide)
  · refine Or.inr ?_
    have := hexRepAux_head_ne_zero (n + 1) n (by omega) hn
    simpa [jsHex] using this

/-- Every character of a `jsHex` string is a lowercase hex digit. -/
theorem jsHex_all_digits (n : Nat) :
    (jsHex n).toList.all isLowerHexDigit = true := by
  have := hexRepAux_all_digits (n + 1) n (by omega)
  simpa [jsHex] using this

/-- Claim C1: in the deployment-aware gas-estimation flow, for every account
that is deployed (`isDeployed = true`), the formatted wire request for
`eth_estimateUserOperationGas` contains neither a `factory` key nor a
`factoryData` key, whatever the SDK draft contained. -/
theorem deployed_flow_omits_factory_keys (draft : UserOperation) :
    ∃ req fo, deployAwareEstimateFlow true draft = Except.ok req ∧
      req.method = "eth_estimateUserOperationGas" ∧
      req.userOp = some fo ∧ fo.factory = none ∧ fo.factoryData = none :=
  ⟨_, _, rfl, rfl, rfl, rfl, rfl⟩

/-- Claim C2 (amended): in the deployment-aware flow with an undeployed
account, a draft lacking a truthy `factory` or `factoryData` aborts with
the fatal error before any request is built; a draft supplying both, with a
factory other than the sentinel `0x`, yields a request carrying both keys
copied from the draft. -/
theorem undeployed_flow_factory_handling (draft : UserOperation) :
    (optTruthy draft.factory = false ∨ optTruthy draft.factoryData = false →
       deployAwareEstimateFlow false draft =
         Except.error "Cannot proceed without factory data for account deployment") ∧
    (∀ f d, draft.factory = some f → draft.factoryData = some d →
       f ≠ "" → d ≠ "" → f ≠ "0x" →
       ∃ req fo, deployAwareEstimateFlow false draft = Except.ok req ∧
         req.userOp = some fo ∧ fo.factory = some f ∧ fo.factoryData = some d) := by
  constructor
  · intro h
    have hb : (optTruthy draft.factory && optTruthy draft.factoryData) = false := by
      rcases h with h | h <;> simp [h]
    simp [deployAwareEstimateFlow, buildSponsoredUserOperation, hb, Except.map]
  · intro f d hf hd hf0 hd0 hfx
    have hb : (optTruthy draft.factory && optTruthy draft.factoryData) = true := by
      simp [optTruthy, hf, hd, hf0, hd0]
    have hbuild : buildSponsoredUserOperation false draft =
        Except.ok
          { sender := draft.sender, nonce := draft.nonce,
            factory := some f, factoryData := some d,
            callData := draft.callData, callGasLimit := draft.callGasLimit,
            verificationGasLimit := draft.verificationGasLimit,
            preVerificationGas := draft.preVerificationGas,
            maxFeePerGas := draft.maxFeePerGas,
            maxPriorityFeePerGas := draft.maxPriorityFeePerGas,
            signature := draft.signature, paymasterAndData := some "0x" } := by
      simp [buildSponsoredUserOperation, optTruthy, hb, hf, hd, hf0, hd0]
    refine ⟨getGasRequestDeployAware entryPointAddress
        ⟨draft.sender, draft.nonce, some f, some d, draft.callData,
         draft.callGasLimit, draft.verificationGasLimit,
         draft.preVerificationGas, draft.maxFeePerGas,
         draft.maxPriorityFeePerGas, draft.signature, some "0x"⟩,
      _, ?_, rfl, ?_, ?_⟩
    · show (buildSponsoredUserOperation false draft).map
        (getGasRequestDeployAware entryPointAddress) = _
      rw [hbuild]; rfl
    · simp [userOpForEstimationDeployAware, factoryFields, hf0, hfx]
    · simp [userOpForEstimationDeployAware, factoryFields, jsOr, hf0, hd0, hfx]

/-- Concrete undeployed draft whose SDK-supplied factory is the sentinel
byte-string `0x`. -/
def draftWithSentinelFactory : UserOperation :=
  { sender := "0xSafeAccount", nonce := 1, factory := some "0x",
    factoryData := some "0xdead", callData := "0x", callGasLimit := 2,
    verificationGasLimit := 3, preVerificationGas := 4, maxFeePerGas := 0,
    maxPriorityFeePerGas := 0, signature := "0xsig" }

/-- Claim C2 counterexample: for an undeployed account whose draft supplies
both keys but with factory equal to `0x`, the flow raises no fatal error
and the formatted request carries neither key, contradicting the claim that
a draft supplying both always yields a request with both keys. -/
theorem undeployed_supplied_factory_dropped :
    draftWithSentinelFactory.factory = some "0x" ∧
    draftWithSentinelFactory.factoryData = some "0xdead" ∧
    ∃ req fo,
      deployAwareEstimateFlow false draftWithSentinelFactory = Except.ok req ∧
      req.userOp = some fo ∧ fo.factory = none ∧ fo.factoryData = none :=
  ⟨rfl, rfl, _, _, rfl, rfl, rfl, rfl⟩

/-- Concrete witness input for claim C2: an undeployed draft with a real
factory address and factory data. -/
def draftWithRealFactory : UserOperation :=
  { sender := "0xSafeAccount", nonce := 0,
    factory := some "0x4e1DCf7AD4e460CfD30791CCC4F9c8a4f820ec67",
    factoryData := some "0xabcdef", callData := "0x", callGasLimit := 2,
    verificationGasLimit := 3, preVerificationGas := 4, maxFeePerGas := 0,
    maxPriorityFeePerGas := 0, signature := "0xsig" }

/-- Concrete witness input for claim C2: an undeployed draft lacking any
factory data. -/
def draftWithoutFactory : UserOperation :=
  { sender := "0xSafeAccount", nonce := 0, callData := "0x",
    callGasLimit := 2, verificationGasLimit := 3, preVerificationGas := 4,
    maxFeePerGas := 0, maxPriorityFeePerGas := 0, signature := "0xsig" }

/-- Witness for claim C2 at two concrete drafts: the factory-less draft
aborts with the fatal error, and the draft with a real factory yields a
request carrying both keys. -/
theorem undeployed_flow_factory_handling_witness :
    deployAwareEstimateFlow false draftWithoutFactory =
      Except.error "Cannot proceed without factory data for account deployment" ∧
    ∃ req fo, deployAwareEstimateFlow false draftWithRealFactory = Except.ok req ∧
      req.userOp = some fo ∧
      fo.factory = some "0x4e1DCf7AD4e460CfD30791CCC4F9c8a4f820ec67" ∧
      fo.factoryData = some "0xabcdef" :=
  ⟨(undeployed_flow_factory_handling draftWithoutFactory).1 (Or.inl rfl),
   (undeployed_flow_factory_handling draftWithRealFactory).2
     "0x4e1DCf7AD4e460CfD30791CCC4F9c8a4f820ec67" "0xabcdef" rfl rfl
     (by decide) (by decide) (by decide)⟩

/-- An EntryPoint address different from the hard-coded v0.7 constant. -/
def zeroAddress : String := "0x0000000000000000000000000000000000000000"

/-- Claim C3 evaluation: for an EntryPoint address other than the v0.7
constant, `detectEntryPointVersion` reports v0.6 and both gas-estimation
request builders still produce an `eth_estimateUserOperationGas` request,
with the UserOperation position left undefined, raising no error — the
code silently issues the malformed request instead of failing loudly. -/
theorem unknown_entrypoint_silently_sends_empty_body (u : UserOperation) :
    detectEntryPointVersion zeroAddress = "v0.6" ∧
    (getGasRequest zeroAddress u).userOp = none ∧
    (getGasRequestDeployAware zeroAddress u).userOp = none ∧
    (getGasRequest zeroAddress u).method = "eth_estimateUserOperationGas" ∧
    (getGasRequestDeployAware zeroAddress u).method = "eth_estimateUserOperationGas" :=
  ⟨rfl, rfl, rfl, rfl, rfl⟩

/-- A parsed JSON-RPC response whose `result` key is present but falsy (the
empty string). -/
def falsyResultResponse : JsValue := .obj [("result", .str "")]

/-- Claim C4 counterexample: a parsed response containing a `result` key
whose value is the empty string is not returned as success — both transport
functions resolve to undefined instead of the present payload, because the
source branches on the truthiness of the field, not on its presence. -/
theorem result_key_present_but_falsy :
    falsyResultResponse.get "result" = some (JsValue.str "") ∧
    getGasValuesResult (.ok falsyResultResponse) = none ∧
    sendUserOperationResult (.ok falsyResultResponse) = none ∧
    getGasValuesResult (.ok falsyResultResponse) ≠ some (JsValue.str "") := by
  refine ⟨rfl, rfl, rfl, fun h => ?_⟩
  have h2 : (none : Option JsValue) = some (JsValue.str "") := h
  exact Option.noConfusion h2

/-- Claim C4 (amended): for every parsed response whose `result` field is
present and truthy, both transport functions return exactly that payload
unmodified; success is determined by the truthiness of the `result` field,
not its mere presence. -/
theorem truthy_result_returned_unmodified (body r : JsValue)
    (hres : body.get "result" = some r) (htr : r.truthy = true) :
    getGasValuesResult (.ok body) = some r ∧
    sendUserOperationResult (.ok body) = some r := by
  have hobj : body.truthy = true := by
    cases body <;> first | rfl | exact Option.noConfusion hres
  constructor <;>
  · show extractRpcResult (some body) = some r
    simp [extractRpcResult, hobj, hres, htr]

/-- Concrete successful gas-estimation payload. -/
def gasResultPayload : JsValue :=
  .obj [("preVerificationGas", .str "0xb52c"), ("callGasLimit", .str "0x13880"),
        ("verificationGasLimit", .str "0x45f14")]

/-- Concrete successful JSON-RPC response carrying `gasResultPayload`. -/
def gasResultResponse : JsValue :=
  .obj [("jsonrpc", .str "2.0"), ("id", .num 1), ("result", gasResultPayload)]

/-- Witness for claim C4 at a concrete successful response: both transport
functions return the payload unmodified. -/
theorem truthy_result_returned_unmodified_witness :
    getGasValuesResult (.ok gasResultResponse) = some gasResultPayload ∧
    sendUserOperationResult (.ok gasResultResponse) = some gasResultPayload :=
  truthy_result_returned_unmodified gasResultResponse gasResultPayload rfl rfl

/-- Claim C5: every non-success transport outcome — a response carrying an
`error` field and no `result` field, a malformed JSON body, or a rejected
fetch — makes both transport functions resolve to the undefined sentinel
`none`; the catch handler only logs, so no rejection propagates, and the
protocol-error path and the network-failure path yield the same value. -/
theorem transport_failures_resolve_falsy (body e : JsValue)
    (herr : body.get "error" = some e) (hres : body.get "result" = none) :
    getGasValuesResult (.ok body) = none ∧
    sendUserOperationResult (.ok body) = none ∧
    getGasValuesResult .malformed = none ∧
    sendUserOperationResult .malformed = none ∧
    getGasValuesResult .reject = none ∧
    sendUserOperationResult .reject = none ∧
    getGasValuesResult .reject = getGasValuesResult .malformed ∧
    sendUserOperationResult .reject = sendUserOperationResult .malformed := by
  refine ⟨?_, ?_, rfl, rfl, rfl, rfl, rfl, rfl⟩ <;>
  · show extractRpcResult (some body) = none
    simp [extractRpcResult, hres]

/-- Concrete remote-error detail object. -/
def errorDetail : JsValue :=
  .obj [("code", .num (-32602)), ("message", .str "Invalid params")]

/-- Concrete JSON-RPC error response carrying `errorDetail`. -/
def errorResponse : JsValue :=
  .obj [("jsonrpc", .str "2.0"), ("id", .num 1), ("error", errorDetail)]

/-- Witness for claim C5 at a concrete error response: both transport
functions resolve to `none` on the error response, on a malformed body and
on a rejected fetch. -/
theorem transport_failures_resolve_falsy_witness :
    getGasValuesResult (.ok errorResponse) = none ∧
    sendUserOperationResult (.ok errorResponse) = none ∧
    getGasValuesResult .malformed = none ∧
    sendUserOperationResult .malformed = none ∧
    getGasValuesResult .reject = none ∧
    sendUserOperationResult .reject = none ∧
    getGasValuesResult .reject = getGasValuesResult .malformed ∧
    sendUserOperationResult .reject = sendUserOperationResult .malformed :=
  transport_failures_resolve_falsy errorResponse errorDetail rfl rfl

/-- Claim C6 (amended): every numeric field that the formatters convert
from the input — all six numeric fields in the two estimation formatters,
and `nonce`, `callGasLimit`, `verificationGasLimit` in the submission
formatter — is rendered as the prefix `0x` followed by the minimal
hexadecimal digits of its value: zero renders as the single digit `0`
(wire `0x0`), a nonzero value never starts with a zero digit, every digit
is a lowercase hex digit, the digits denote exactly the input value, and a
nonce of five renders as `0x5`.  The submission formatter instead hardcodes
its fee fields and `preVerificationGas` to `0x0`. -/
theorem numeric_fields_hex_formatted (u : UserOperation) :
    ((userOpForEstimation u).nonce = "0x" ++ jsHex u.nonce ∧
     (userOpForEstimation u).callGasLimit = "0x" ++ jsHex u.callGasLimit ∧
     (userOpForEstimation u).verificationGasLimit =
       "0x" ++ jsHex u.verificationGasLimit ∧
     (userOpForEstimation u).preVerificationGas =
       "0x" ++ jsHex u.preVerificationGas ∧
     (userOpForEstimation u).maxFeePerGas = "0x" ++ jsHex u.maxFeePerGas ∧
     (userOpForEstimation u).maxPriorityFeePerGas =
       "0x" ++ jsHex u.maxPriorityFeePerGas) ∧
    ((userOpForEstimationDeployAware u).nonce = "0x" ++ jsHex u.nonce ∧
     (userOpForEstimationDeployAware u).callGasLimit =
       "0x" ++ jsHex u.callGasLimit ∧
     (userOpForEstimationDeployAware u).verificationGasLimit =
       "0x" ++ jsHex u.verificationGasLimit ∧
     (userOpForEstimationDeployAware u).preVerificationGas =
       "0x" ++ jsHex u.preVerificationGas ∧
     (userOpForEstimationDeployAware u).maxFeePerGas =
       "0x" ++ jsHex u.maxFeePerGas ∧
     (userOpForEstimationDeployAware u).maxPriorityFeePerGas =
       "0x" ++ jsHex u.maxPriorityFeePerGas) ∧
    ((userOpForSubmission u).nonce = "0x" ++ jsHex u.nonce ∧
     (userOpForSubmission u).callGasLimit = "0x" ++ jsHex u.callGasLimit ∧
     (userOpForSubmission u).verificationGasLimit =
       "0x" ++ jsHex u.verificationGasLimit) ∧
    (jsHex 0 = "0" ∧ jsHex 5 = "5") ∧
    (∀ n, jsHex n = "0" ∨ (jsHex n).toList.head? ≠ some '0') ∧
    (∀ n, parseHexDigits (jsHex n).toList = n) ∧
    (∀ n, (jsHex n).toList.all isLowerHexDigit = true) :=
  ⟨⟨rfl, rfl, rfl, rfl, rfl, rfl⟩, ⟨rfl, rfl, rfl, rfl, rfl, rfl⟩,
   ⟨rfl, rfl, rfl⟩, ⟨by decide, by decide⟩,
   jsHex_no_leading_zero, parseHexDigits_jsHex, jsHex_all_digits⟩

/-- Concrete send-flow input with nonzero fee fields and nonzero
`preVerificationGas`. -/
def sendInputNonzeroFees : UserOperation :=
  { sender := "0xSafeAccount", nonce := 5, callData := "0x",
    callGasLimit := 100000, verificationGasLimit := 200000,
    preVerificationGas := 7, maxFeePerGas := 9, maxPriorityFeePerGas := 3,
    signature := "0xsig" }

/-- Claim C6 counterexample: in the submission formatter a
`preVerificationGas` of 7 and a `maxFeePerGas` of 9 are rendered as `0x0`,
not as the hex digits of the input values, refuting the claim for those
fields. -/
theorem send_fee_fields_not_hex_of_input :
    sendInputNonzeroFees.preVerificationGas = 7 ∧
    (userOpForSubmission sendInputNonzeroFees).preVerificationGas = "0x0" ∧
    "0x0" ≠ "0x" ++ jsHex 7 ∧
    sendInputNonzeroFees.maxFeePerGas = 9 ∧
    (userOpForSubmission sendInputNonzeroFees).maxFeePerGas = "0x0" ∧
    "0x0" ≠ "0x" ++ jsHex 9 :=
  ⟨rfl, rfl, by decide, rfl, rfl, by decide⟩

/-- Claim C7: the submission formatter renders `maxFeePerGas`,
`maxPriorityFeePerGas` and `preVerificationGas` as `0x0` for every input
UserOperation, regardless of the values those fields carry. -/
theorem send_flow_zeroes_fee_fields (u : UserOperation) :
    (userOpForSubmission u).maxFeePerGas = "0x0" ∧
    (userOpForSubmission u).maxPriorityFeePerGas = "0x0" ∧
    (userOpForSubmission u).preVerificationGas = "0x0" :=
  ⟨rfl, rfl, rfl⟩

/-- Claim C8: every formatter copies the input signature byte-string into
the wire object unchanged, and the estimation request embeds that formatted
object before the POST is issued; the formatters and request builders are
pure functions of the input record, so the input UserOperation is never
mutated. -/
theorem formatters_preserve_signature (u : UserOperation) :
    (userOpForSubmission u).signature = u.signature ∧
    (userOpForEstimation u).signature = u.signature ∧
    (userOpForEstimationDeployAware u).signature = u.signature ∧
    (getGasRequest entryPointAddress u).userOp = some (userOpForEstimation u) :=
  ⟨rfl, rfl, rfl, rfl⟩

/-- Claim C9 (amended): in the standalone estimation flow, which has no
deployment-status check, every draft whose SDK-supplied factory is a
nonempty string other than the sentinel `0x` yields a formatted request
carrying both the factory key and the factoryData key (the latter
defaulting to `0x` when the draft omits it). -/
theorem standalone_estimate_includes_factory (draft : UserOperation)
    (f : String) (hf : draft.factory = some f) (h0 : f ≠ "")
    (hx : f ≠ "0x") :
    ∃ fo, (standaloneEstimateFlow draft).userOp = some fo ∧
      fo.factory = some f ∧
      fo.factoryData = some (jsOr draft.factoryData "0x") := by
  refine ⟨userOpForEstimation (standaloneSponsoredUserOperation draft),
    rfl, ?_, ?_⟩
  · simp [userOpForEstimation, standaloneSponsoredUserOperation,
      factoryFields, hf, h0, hx]
  · simp [userOpForEstimation, standaloneSponsoredUserOperation,
      factoryFields, hf, h0, hx]

/-- Concrete standalone-flow draft with a real factory address and no
factory data. -/
def standaloneDraftWitness : UserOperation :=
  { sender := "0xSafeAccount", nonce := 3,
    factory := some "0x4e1DCf7AD4e460CfD30791CCC4F9c8a4f820ec67",
    callData := "0xd09de08a", callGasLimit := 1, verificationGasLimit := 1,
    preVerificationGas := 1, maxFeePerGas := 0, maxPriorityFeePerGas := 0,
    signature := "0xsig" }

/-- Witness for claim C9 at a concrete draft: the formatted request carries
the factory key and a factoryData key defaulted to `0x`. -/
theorem standalone_estimate_includes_factory_witness :
    ∃ fo, (standaloneEstimateFlow standaloneDraftWitness).userOp = some fo ∧
      fo.factory = some "0x4e1DCf7AD4e460CfD30791CCC4F9c8a4f820ec67" ∧
      fo.factoryData = some "0x" :=
  standalone_estimate_includes_factory standaloneDraftWitness
    "0x4e1DCf7AD4e460CfD30791CCC4F9c8a4f820ec67" rfl (by decide) (by decide)

/-- Concrete standalone-flow draft whose SDK factory is the sentinel `0x`. -/
def standaloneSentinelDraft : UserOperation :=
  { sender := "0xSafeAccount", nonce := 0, factory := some "0x",
    factoryData := some "0xbeef", callData := "0x", callGasLimit := 1,
    verificationGasLimit := 1, preVerificationGas := 1, maxFeePerGas := 0,
    maxPriorityFeePerGas := 0, signature := "0xsig" }

/-- Claim C9 counterexample: a standalone-flow draft whose factory field is
populated with the byte-string `0x` (and whose factoryData is populated)
yields a formatted request with neither key, refuting the claim that
SDK-returned factory data is always included. -/
theorem standalone_factory_dropped :
    standaloneSentinelDraft.factory = some "0x" ∧
    standaloneSentinelDraft.factoryData = some "0xbeef" ∧
    ∃ fo, (standaloneEstimateFlow standaloneSentinelDraft).userOp = some fo ∧
      fo.factory = none ∧ fo.factoryData = none :=
  ⟨rfl, rfl, _, rfl, rfl, rfl⟩

/-- Claim C10: in every formatter, the factory and factoryData keys appear
together or not at all: a factory field that is absent or carries the
sentinel `0x` produces neither key, and a present factory distinct from
`0x` produces both keys, with factoryData defaulting to `0x` when absent
from the input.  The hypotheses restrict the optional string fields to the
TypeScript template-string domain (nonempty strings of shape `0x...`). -/
theorem factory_keys_together_or_absent (u : UserOperation)
    (hwd : ∀ d, u.factoryData = some d → d ≠ "") :
    ((u.factory = none ∨ u.factory = some "0x") →
       (userOpForSubmission u).factory = none ∧
       (userOpForSubmission u).factoryData = none ∧
       (userOpForEstimation u).factory = none ∧
       (userOpForEstimation u).factoryData = none ∧
       (userOpForEstimationDeployAware u).factory = none ∧
       (userOpForEstimationDeployAware u).factoryData = none) ∧
    (∀ f, u.factory = some f → f ≠ "" → f ≠ "0x" →
       (userOpForSubmission u).factory = some f ∧
       (userOpForSubmission u).factoryData = some (u.factoryData.getD "0x") ∧
       (userOpForEstimation u).factory = some f ∧
       (userOpForEstimation u).factoryData = some (u.factoryData.getD "0x") ∧
       (userOpForEstimationDeployAware u).factory = some f ∧
       (userOpForEstimationDeployAware u).factoryData =
         some (u.factoryData.getD "0x")) := by
  have hjs : jsOr u.factoryData "0x" = u.factoryData.getD "0x" := by
    cases hd : u.factoryData with
    | none => rfl
    | some d => simp [jsOr, hwd d hd]
  constructor
  · intro h
    have hff : factoryFields u.factory u.factoryData = (none, none) := by
      rcases h with h | h <;> simp [factoryFields, h]
    simp [userOpForSubmission, userOpForEstimation,
      userOpForEstimationDeployAware, hff]
  · intro f hf h0 hx
    have hff : factoryFields u.factory u.factoryData =
        (some f, some (jsOr u.factoryData "0x")) := by
      simp [factoryFields, hf, h0, hx]
    simp [userOpForSubmission, userOpForEstimation,
      userOpForEstimationDeployAware, hff, hjs]

/-- Concrete UserOperation without factory fields. -/
def opNoFactory : UserOperation :=
  { sender := "0xSafeAccount", nonce := 2, callData := "0x",
    callGasLimit := 1, verificationGasLimit := 1, preVerificationGas := 1,
    maxFeePerGas := 0, maxPriorityFeePerGas := 0, signature := "0xsig" }

/-- Concrete UserOperation with a real factory address and no factory
data. -/
def opWithFactory : UserOperation :=
  { sender := "0xSafeAccount", nonce := 2,
    factory := some "0x4e1DCf7AD4e460CfD30791CCC4F9c8a4f820ec67",
    callData := "0x", callGasLimit := 1, verificationGasLimit := 1,
    preVerificationGas := 1, maxFeePerGas := 0, maxPriorityFeePerGas := 0,
    signature := "0xsig" }

/-- Witness for claim C10 at two concrete inputs: no keys without a
factory, both keys (with defaulted factoryData) with one. -/
theorem factory_keys_together_or_absent_witness :
    ((userOpForSubmission opNoFactory).factory = none ∧
     (userOpForSubmission opNoFactory).factoryData = none ∧
     (userOpForEstimation opNoFactory).factory = none ∧
     (userOpForEstimation opNoFactory).factoryData = none ∧
     (userOpForEstimationDeployAware opNoFactory).factory = none ∧
     (userOpForEstimationDeployAware opNoFactory).factoryData = none) ∧
    ((userOpForSubmission opWithFactory).factory =
       some "0x4e1DCf7AD4e460CfD30791CCC4F9c8a4f820ec67" ∧
     (userOpForSubmission opWithFactory).factoryData = some "0x" ∧
     (userOpForEstimation opWithFactory).factory =
       some "0x4e1DCf7AD4e460CfD30791CCC4F9c8a4f820ec67" ∧
     (userOpForEstimation opWithFactory).factoryData = some "0x" ∧
     (userOpForEstimationDeployAware opWithFactory).factory =
       some "0x4e1DCf7AD4e460CfD30791CCC4F9c8a4f820ec67" ∧
     (userOpForEstimationDeployAware opWithFactory).factoryData =
       some "0x") :=
  ⟨(factory_keys_together_or_absent opNoFactory
      (fun _ hd => Option.noConfusion hd)).1 (Or.inl rfl),
   (factory_keys_together_or_absent opWithFactory
      (fun _ hd => Option.noConfusion hd)).2
     "0x4e1DCf7AD4e460CfD30791CCC4F9c8a4f820ec67" rfl (by decide) (by decide)⟩
